import Mathlib

/-!
Shallow embedding of `great_expectations/validation_operators/actions.py`.

The file defines the base `ValidationAction` contract (`run` delegating to
`_run`) and six concrete actions: `NoOpAction`, `SlackNotificationAction`,
`StoreValidationResultAction`, `StoreEvaluationParametersAction`,
`StoreMetricsAction` and `UpdateDataDocsAction`.

Each `_run` is embedded as a pure function returning the list of collaborator
calls it performed (in order) together with either a raised error or its
Python return value.  Collaborators (stores, the renderer, the Slack webhook
transport, the Data Context capability surface) are external to the source
file; their invocations are recorded symbolically as effects carrying the
arguments the source passes them.
-/

namespace GreatExpectations

/-- A validation result: an opaque record carrying a boolean `success` field,
with `payload` standing for the rest of its (opaque) content. -/
structure ValidationResult where
  success : Bool
  payload : Nat
deriving DecidableEq, Repr

/-- The identifier argument of `_run`.  The source only ever distinguishes
whether the value is an instance of `ValidationResultIdentifier`
(`isinstance(x, ValidationResultIdentifier)`); `other` stands for a value of
any other runtime type. -/
inductive Identifier where
  | validationResult (idx : Nat)
  | other (idx : Nat)
deriving DecidableEq, Repr

/-- Embeds `isinstance(x, ValidationResultIdentifier)`. -/
def Identifier.isValidationResultIdentifier : Identifier → Bool
  | .validationResult _ => true
  | .other _ => false

/-- Embeds `type(x)` as it appears interpolated into the TypeError messages. -/
def Identifier.typeName : Identifier → String
  | .validationResult _ => "ValidationResultIdentifier"
  | .other _ => "OtherIdentifier"

/-- Which store class a registered store instance is: the source only tests
`isinstance(store, MetricStore)`. -/
inductive StoreKind where
  | metricStore
  | basic
deriving DecidableEq, Repr

/-- A store registered in the Data Context: `sid` is the object identity of
the store instance, `kind` its class for the `isinstance` test. -/
structure Store where
  sid : Nat
  kind : StoreKind
deriving DecidableEq, Repr

/-- The Data Context fields the source reads: the `stores` name registry,
`validations_store_name`, and the `evaluation_parameter_store` property. -/
structure DataContext where
  stores : List (String × Store)
  validationsStoreName : String
  evaluationParameterStore : Store
deriving DecidableEq, Repr

/-- Errors the source can raise. -/
inductive ActionError where
  | typeError (msg : String)
  | dataContextError (msg : String)
  | keyError (name : String)
  | classInstantiationError
  | assertionError (msg : String)
deriving DecidableEq, Repr

/-- Embeds the Python dict subscript `data_context.stores[name]`: returns the
store or raises `KeyError`. -/
def DataContext.storesLookup (dc : DataContext) (name : String) :
    Except ActionError Store :=
  match dc.stores.find? (fun p => decide (p.1 = name)) with
  | some p => Except.ok p.2
  | none => Except.error (ActionError.keyError name)

/-- The `requested_metrics` configuration dictionary:
suite-name selector to metric name to list of metric-kwargs ids. -/
abbrev RequestedMetrics := List (String × List (String × List String))

/-- Modelled from the spec: the external renderer capability turns a
validation result into a transport-ready payload (`render(result) -> payload`,
spec section 6); the payload is recorded symbolically. -/
inductive Payload where
  | rendered (rendererId : Nat) (result : ValidationResult)
deriving DecidableEq, Repr

/-- Modelled from the spec: the external notification transport
(`send(payload, destination) -> outcome`, spec section 6); the outcome is
recorded symbolically. -/
inductive TransportOutcome where
  | sent (payload : Payload) (webhook : String)
deriving DecidableEq, Repr

/-- A call made to an external collaborator, with the arguments the source
passes it.  `printMsg` records the diagnostic `print` of `NoOpAction`. -/
inductive Effect where
  | printMsg (msg : String)
  | render (rendererId : Nat) (result : ValidationResult)
  | sendSlack (payload : Payload) (webhook : String)
  | storeSet (storeId : Nat) (key : Identifier) (value : ValidationResult)
  | storeEvaluationParameters (dc : DataContext) (result : ValidationResult)
  | storeValidationResultMetrics (dc : DataContext) (requested : RequestedMetrics)
      (result : ValidationResult) (storeName : String)
  | buildDataDocs (dc : DataContext) (siteNames : Option (List String))
      (resourceIdentifiers : List Identifier)
deriving DecidableEq, Repr

/-- The collaborator calls named by the spec: store writes, renderer calls,
webhook sends, and the three Data Context capabilities.  The diagnostic
`print` of `NoOpAction` is not a collaborator. -/
def Effect.isCollaboratorCall : Effect → Bool
  | .printMsg _ => false
  | _ => true

/-- Python return values of `_run`: `None`, the Slack transport outcome, or
the `NotImplementedError` class object that the base `_run` returns
(note: `return NotImplementedError`, not `raise`). -/
inductive RetVal where
  | none
  | slackResult (o : TransportOutcome)
  | notImplementedErrorClass
deriving DecidableEq, Repr

/-- Result of one `_run` invocation: the collaborator calls performed before
returning or raising, and either the raised error or the return value. -/
abbrev RunOutput := List Effect × Except ActionError RetVal

/-- `ValidationAction._run`: the base implementation executes
`return NotImplementedError`, i.e. it returns the exception class as a normal
value and does not raise. -/
def ValidationAction._run (vrs : Option ValidationResult) (i : Identifier)
    (da : Option Nat) : RunOutput :=
  ([], Except.ok RetVal.notImplementedErrorClass)

/-- `ValidationAction.run` delegates to `_run` with the same arguments. -/
def ValidationAction.run (vrs : Option ValidationResult) (i : Identifier)
    (da : Option Nat) : RunOutput :=
  ValidationAction._run vrs i da

/-- `NoOpAction`: holds only the Data Context. -/
structure NoOpAction where
  dataContext : DataContext
deriving DecidableEq, Repr

/-- `NoOpAction._run`: prints a fixed message and returns `None`; it inspects
neither the result nor the identifier. -/
def NoOpAction._run (a : NoOpAction) (vrs : Option ValidationResult)
    (i : Identifier) (da : Option Nat) : RunOutput :=
  ([Effect.printMsg "Happily doing nothing"], Except.ok RetVal.none)

/-- `NoOpAction.run` delegates to `_run`. -/
def NoOpAction.run (a : NoOpAction) (vrs : Option ValidationResult)
    (i : Identifier) (da : Option Nat) : RunOutput :=
  NoOpAction._run a vrs i da

/-- `SlackNotificationAction` after construction: the resolved renderer
(identified by `rendererId`), the webhook address, and the trigger policy. -/
structure SlackNotificationAction where
  dataContext : DataContext
  rendererId : Nat
  slackWebhook : String
  notifyOn : String
deriving DecidableEq, Repr

/-- `SlackNotificationAction.__init__`: `rendererResolved` is the value
produced by the external `instantiate_class_from_config` resolver (`none`
models a falsy/absent resolution, raising `ClassInstantiationError`); an empty
webhook fails the `assert slack_webhook` check. -/
def SlackNotificationAction.init (dc : DataContext) (rendererResolved : Option Nat)
    (slackWebhook : String) (notifyOn : String) :
    Except ActionError SlackNotificationAction :=
  match rendererResolved with
  | none => Except.error ActionError.classInstantiationError
  | some rid =>
    if slackWebhook = "" then
      Except.error (ActionError.assertionError "No Slack webhook found in action config.")
    else
      Except.ok ⟨dc, rid, slackWebhook, notifyOn⟩

/-- The TypeError message of `SlackNotificationAction._run`. -/
def slackTypeErrorMsg (i : Identifier) : String :=
  "validation_result_suite_id must be of type ValidationResultIdentifier, not "
    ++ i.typeName

/-- The TypeError message shared by the four storing actions. -/
def storeTypeErrorMsg (i : Identifier) : String :=
  "validation_result_id must be of type ValidationResultIdentifier, not "
    ++ i.typeName

/-- `SlackNotificationAction._run`: absent-result guard, identifier-kind
guard, then the trigger-policy test
`notify_on == "all" or notify_on == "success" and success or
notify_on == "failure" and not success` (Python precedence: `and` binds
tighter than `or`); on fire it renders and sends, returning the transport
outcome, otherwise it returns `None`. -/
def SlackNotificationAction._run (a : SlackNotificationAction)
    (vrs : Option ValidationResult) (i : Identifier) (da : Option Nat) :
    RunOutput :=
  match vrs with
  | none => ([], Except.ok RetVal.none)
  | some result =>
    if !i.isValidationResultIdentifier then
      ([], Except.error (ActionError.typeError (slackTypeErrorMsg i)))
    else
      let validationSuccess := result.success
      if a.notifyOn == "all"
          || a.notifyOn == "success" && validationSuccess
          || a.notifyOn == "failure" && !validationSuccess then
        let query := Payload.rendered a.rendererId result
        ([Effect.render a.rendererId result, Effect.sendSlack query a.slackWebhook],
          Except.ok (RetVal.slackResult (TransportOutcome.sent query a.slackWebhook)))
      else
        ([], Except.ok RetVal.none)

/-- `SlackNotificationAction.run` delegates to `_run`. -/
def SlackNotificationAction.run (a : SlackNotificationAction)
    (vrs : Option ValidationResult) (i : Identifier) (da : Option Nat) :
    RunOutput :=
  SlackNotificationAction._run a vrs i da

/-- `StoreValidationResultAction` after construction: the resolved target
store. -/
structure StoreValidationResultAction where
  dataContext : DataContext
  targetStore : Store
deriving DecidableEq, Repr

/-- `StoreValidationResultAction.__init__`: resolves
`stores[validations_store_name]` when no name is given, else
`stores[target_store_name]`; a missing key propagates as `KeyError`. -/
def StoreValidationResultAction.init (dc : DataContext)
    (targetStoreName : Option String) :
    Except ActionError StoreValidationResultAction :=
  match targetStoreName with
  | none => (dc.storesLookup dc.validationsStoreName).map (fun s => ⟨dc, s⟩)
  | some n => (dc.storesLookup n).map (fun s => ⟨dc, s⟩)

/-- `StoreValidationResultAction._run`: absent-result guard, identifier-kind
guard, then `target_store.set(identifier, result)`; returns `None`. -/
def StoreValidationResultAction._run (a : StoreValidationResultAction)
    (vrs : Option ValidationResult) (i : Identifier) (da : Option Nat) :
    RunOutput :=
  match vrs with
  | none => ([], Except.ok RetVal.none)
  | some result =>
    if !i.isValidationResultIdentifier then
      ([], Except.error (ActionError.typeError (storeTypeErrorMsg i)))
    else
      ([Effect.storeSet a.targetStore.sid i result], Except.ok RetVal.none)

/-- `StoreValidationResultAction.run` delegates to `_run`. -/
def StoreValidationResultAction.run (a : StoreValidationResultAction)
    (vrs : Option ValidationResult) (i : Identifier) (da : Option Nat) :
    RunOutput :=
  StoreValidationResultAction._run a vrs i da

/-- `StoreEvaluationParametersAction` after construction. -/
structure StoreEvaluationParametersAction where
  dataContext : DataContext
  targetStore : Store
deriving DecidableEq, Repr

/-- `StoreEvaluationParametersAction.__init__`: with no name, reads the
`evaluation_parameter_store` property (no registry access); with an explicit
name, `stores[target_store_name]`, whose missing-key `KeyError` propagates
uncaught. -/
def StoreEvaluationParametersAction.init (dc : DataContext)
    (targetStoreName : Option String) :
    Except ActionError StoreEvaluationParametersAction :=
  match targetStoreName with
  | none => Except.ok ⟨dc, dc.evaluationParameterStore⟩
  | some n => (dc.storesLookup n).map (fun s => ⟨dc, s⟩)

/-- `StoreEvaluationParametersAction._run`: absent-result guard,
identifier-kind guard, then
`data_context.store_evaluation_parameters(result)`; the target store resolved
at construction is never read. -/
def StoreEvaluationParametersAction._run (a : StoreEvaluationParametersAction)
    (vrs : Option ValidationResult) (i : Identifier) (da : Option Nat) :
    RunOutput :=
  match vrs with
  | none => ([], Except.ok RetVal.none)
  | some result =>
    if !i.isValidationResultIdentifier then
      ([], Except.error (ActionError.typeError (storeTypeErrorMsg i)))
    else
      ([Effect.storeEvaluationParameters a.dataContext result], Except.ok RetVal.none)

/-- `StoreEvaluationParametersAction.run` delegates to `_run`. -/
def StoreEvaluationParametersAction.run (a : StoreEvaluationParametersAction)
    (vrs : Option ValidationResult) (i : Identifier) (da : Option Nat) :
    RunOutput :=
  StoreEvaluationParametersAction._run a vrs i da

/-- `StoreMetricsAction` after construction: the requested-metrics dictionary
and the target store name (the store itself is looked up only in
`__init__`). -/
structure StoreMetricsAction where
  dataContext : DataContext
  requestedMetrics : RequestedMetrics
  targetStoreName : String
deriving DecidableEq, Repr

/-- `StoreMetricsAction.__init__`: looks the target store up eagerly,
converting a `KeyError` into a `DataContextError`, and raises a
`DataContextError` when the resolved store is not a `MetricStore`. -/
def StoreMetricsAction.init (dc : DataContext) (requestedMetrics : RequestedMetrics)
    (targetStoreName : String) : Except ActionError StoreMetricsAction :=
  match dc.storesLookup targetStoreName with
  | Except.error _ =>
    Except.error (ActionError.dataContextError
      ("Unable to find store " ++ targetStoreName ++ " in your DataContext configuration."))
  | Except.ok store =>
    if store.kind ≠ StoreKind.metricStore then
      Except.error (ActionError.dataContextError
        "StoreMetricsAction must have a valid MetricsStore for its target store.")
    else
      Except.ok ⟨dc, requestedMetrics, targetStoreName⟩

/-- `StoreMetricsAction._run`: absent-result guard, identifier-kind guard,
then `data_context.store_validation_result_metrics(requested_metrics, result,
target_store_name)`; no store-capability check is repeated here. -/
def StoreMetricsAction._run (a : StoreMetricsAction)
    (vrs : Option ValidationResult) (i : Identifier) (da : Option Nat) :
    RunOutput :=
  match vrs with
  | none => ([], Except.ok RetVal.none)
  | some result =>
    if !i.isValidationResultIdentifier then
      ([], Except.error (ActionError.typeError (storeTypeErrorMsg i)))
    else
      ([Effect.storeValidationResultMetrics a.dataContext a.requestedMetrics
          result a.targetStoreName], Except.ok RetVal.none)

/-- `StoreMetricsAction.run` delegates to `_run`. -/
def StoreMetricsAction.run (a : StoreMetricsAction)
    (vrs : Option ValidationResult) (i : Identifier) (da : Option Nat) :
    RunOutput :=
  StoreMetricsAction._run a vrs i da

/-- `UpdateDataDocsAction` after construction: the (possibly absent) list of
site names. -/
structure UpdateDataDocsAction where
  dataContext : DataContext
  siteNames : Option (List String)
deriving DecidableEq, Repr

/-- Python truthiness of an optional list argument: `None` and the empty list
are falsy. -/
def truthyOptList : Option (List String) → Bool
  | none => false
  | some l => !l.isEmpty

/-- The deprecation warning emitted for `target_site_names`. -/
def targetSiteNamesDeprecationMsg : String :=
  "target_site_names is deprecated. Please use site_names instead."

/-- `UpdateDataDocsAction.__init__`: returns the warnings emitted and either
the raised error or the constructed action.  A truthy `target_site_names`
first emits the deprecation warning, then raises a `DataContextError` when
`site_names` is also truthy, else takes effect as `site_names`. -/
def UpdateDataDocsAction.init (dc : DataContext)
    (siteNames targetSiteNames : Option (List String)) :
    List String × Except ActionError UpdateDataDocsAction :=
  if truthyOptList targetSiteNames then
    if truthyOptList siteNames then
      ([targetSiteNamesDeprecationMsg],
        Except.error (ActionError.dataContextError
          ("Invalid configuration: legacy key target_site_names and site_names key are "
            ++ "both present in UpdateDataDocsAction configuration")))
    else
      ([targetSiteNamesDeprecationMsg], Except.ok ⟨dc, targetSiteNames⟩)
  else
    ([], Except.ok ⟨dc, siteNames⟩)

/-- `UpdateDataDocsAction._run`: absent-result guard, identifier-kind guard,
then `data_context.build_data_docs(site_names, [identifier])`. -/
def UpdateDataDocsAction._run (a : UpdateDataDocsAction)
    (vrs : Option ValidationResult) (i : Identifier) (da : Option Nat) :
    RunOutput :=
  match vrs with
  | none => ([], Except.ok RetVal.none)
  | some result =>
    if !i.isValidationResultIdentifier then
      ([], Except.error (ActionError.typeError (storeTypeErrorMsg i)))
    else
      ([Effect.buildDataDocs a.dataContext a.siteNames [i]], Except.ok RetVal.none)

/-- `UpdateDataDocsAction.run` delegates to `_run`. -/
def UpdateDataDocsAction.run (a : UpdateDataDocsAction)
    (vrs : Option ValidationResult) (i : Identifier) (da : Option Nat) :
    RunOutput :=
  UpdateDataDocsAction._run a vrs i da

/-- Modelled from the spec: the external Store capability state, a mapping
from identifiers to stored values (spec section 6: `get(identifier)`,
`set(identifier, value)`, upsert semantics on `set`). -/
abbrev StoreState := List (Identifier × ValidationResult)

/-- Modelled from the spec: `set(identifier, value)` with upsert semantics. -/
def storeStateSet (s : StoreState) (k : Identifier) (v : ValidationResult) :
    StoreState :=
  (k, v) :: s.filter (fun p => !decide (p.1 = k))

/-- Modelled from the spec: `get(identifier)`. -/
def storeStateGet (s : StoreState) (k : Identifier) : Option ValidationResult :=
  (s.find? (fun p => decide (p.1 = k))).map (fun p => p.2)

/-- Replays the recorded effects against the state of the store with identity
`storeId`: only `set` calls addressed to that store change it. -/
def applyEffectsToStore (storeId : Nat) (s : StoreState) (effs : List Effect) :
    StoreState :=
  effs.foldl
    (fun acc e =>
      match e with
      | Effect.storeSet sid k v => if sid = storeId then storeStateSet acc k v else acc
      | _ => acc)
    s

/-! Concrete instances used by the witness theorems. -/

/-- A non-metric store instance. -/
def storeBasicEx : Store := ⟨0, StoreKind.basic⟩

/-- A metric store instance. -/
def storeMetricEx : Store := ⟨1, StoreKind.metricStore⟩

/-- A Data Context with one validations store and one metrics store. -/
def dcEx : DataContext :=
  ⟨[("validations_store", storeBasicEx), ("metrics_store", storeMetricEx)],
    "validations_store", storeBasicEx⟩

/-- A successful validation result. -/
def rEx : ValidationResult := ⟨true, 0⟩

/-- A Slack action with trigger policy `"all"`. -/
def slackEx : SlackNotificationAction := ⟨dcEx, 7, "hooks.example/abc", "all"⟩

/-- A result-persistence action targeting `storeBasicEx`. -/
def storeVRActionEx : StoreValidationResultAction := ⟨dcEx, storeBasicEx⟩

/-- An evaluation-parameter action targeting `storeBasicEx`. -/
def storeEvalActionEx : StoreEvaluationParametersAction := ⟨dcEx, storeBasicEx⟩

/-- A metrics action targeting `"metrics_store"`. -/
def storeMetricsActionEx : StoreMetricsAction := ⟨dcEx, [], "metrics_store"⟩

/-- A documentation-refresh action with no site-name restriction. -/
def docsActionEx : UpdateDataDocsAction := ⟨dcEx, none⟩

/-- Claim C1: for the Slack notification action, given a non-None result and
an identifier of kind ValidationResultIdentifier, `run` fires (renders the
result, sends it to the webhook and returns the transport outcome) iff
`notify_on` is `"all"`, or `"success"` with a successful result, or
`"failure"` with a failed result; in every other case it returns nothing
without rendering or sending. -/
theorem slackNotificationAction_fires_iff
    (a : SlackNotificationAction) (r : ValidationResult) (i : Identifier)
    (da : Option Nat) (h : i.isValidationResultIdentifier = true) :
    (SlackNotificationAction.run a (some r) i da =
        ([Effect.render a.rendererId r,
          Effect.sendSlack (Payload.rendered a.rendererId r) a.slackWebhook],
          Except.ok (RetVal.slackResult
            (TransportOutcome.sent (Payload.rendered a.rendererId r) a.slackWebhook)))
      ↔ (a.notifyOn = "all" ∨ a.notifyOn = "success" ∧ r.success = true
          ∨ a.notifyOn = "failure" ∧ r.success = false))
    ∧ (SlackNotificationAction.run a (some r) i da = ([], Except.ok RetVal.none)
      ↔ ¬ (a.notifyOn = "all" ∨ a.notifyOn = "success" ∧ r.success = true
          ∨ a.notifyOn = "failure" ∧ r.success = false)) := by
  have hcond : (a.notifyOn == "all" || a.notifyOn == "success" && r.success
      || a.notifyOn == "failure" && !r.success) = true
      ↔ (a.notifyOn = "all" ∨ a.notifyOn = "success" ∧ r.success = true
          ∨ a.notifyOn = "failure" ∧ r.success = false) := by
    simp [Bool.or_eq_true, Bool.and_eq_true, Bool.not_eq_true', or_assoc]
  by_cases hc : (a.notifyOn == "all" || a.notifyOn == "success" && r.success
      || a.notifyOn == "failure" && !r.success) = true
  · constructor
    · simp [SlackNotificationAction.run, SlackNotificationAction._run, h, hc,
        hcond.mp hc]
    · simp [SlackNotificationAction.run, SlackNotificationAction._run, h, hc,
        hcond.mp hc]
  · constructor
    · simp only [SlackNotificationAction.run, SlackNotificationAction._run, h,
        Bool.not_true, Bool.false_eq_true, if_false, hc, if_neg hc]
      simp [hcond.symm, hc]
    · simp only [SlackNotificationAction.run, SlackNotificationAction._run, h,
        Bool.not_true, Bool.false_eq_true, if_false, hc, if_neg hc]
      simp [hcond.symm, hc]

/-- Witness for C1: the example Slack action (`notify_on = "all"`) fires on a
successful result with a valid identifier. -/
theorem slackNotificationAction_fires_iff_witness :
    SlackNotificationAction.run slackEx (some rEx) (Identifier.validationResult 0) none =
      ([Effect.render slackEx.rendererId rEx,
        Effect.sendSlack (Payload.rendered slackEx.rendererId rEx) slackEx.slackWebhook],
        Except.ok (RetVal.slackResult
          (TransportOutcome.sent (Payload.rendered slackEx.rendererId rEx)
            slackEx.slackWebhook))) :=
  (slackNotificationAction_fires_iff slackEx rEx (Identifier.validationResult 0)
      none rfl).1.mpr (Or.inl rfl)

/-- Claim C2: each of the six concrete actions, invoked through `run` with a
`None` validation result, returns `None` without raising and performs no
collaborator call (no store set, render, webhook send,
store_evaluation_parameters, store_validation_result_metrics, or
build_data_docs); NoOpAction only performs its diagnostic print. -/
theorem actions_none_result_no_collaborator
    (aNoOp : NoOpAction) (aSlack : SlackNotificationAction)
    (aStore : StoreValidationResultAction) (aEval : StoreEvaluationParametersAction)
    (aMetrics : StoreMetricsAction) (aDocs : UpdateDataDocsAction)
    (i : Identifier) (da : Option Nat) :
    ((NoOpAction.run aNoOp none i da).2 = Except.ok RetVal.none
      ∧ ∀ e ∈ (NoOpAction.run aNoOp none i da).1, e.isCollaboratorCall = false)
    ∧ SlackNotificationAction.run aSlack none i da = ([], Except.ok RetVal.none)
    ∧ StoreValidationResultAction.run aStore none i da = ([], Except.ok RetVal.none)
    ∧ StoreEvaluationParametersAction.run aEval none i da = ([], Except.ok RetVal.none)
    ∧ StoreMetricsAction.run aMetrics none i da = ([], Except.ok RetVal.none)
    ∧ UpdateDataDocsAction.run aDocs none i da = ([], Except.ok RetVal.none) := by
  refine ⟨⟨rfl, ?_⟩, rfl, rfl, rfl, rfl, rfl⟩
  simp [NoOpAction.run, NoOpAction._run, Effect.isCollaboratorCall]

/-- Counterexample for C3: NoOpAction, one of the six concrete actions, given
a non-None result and an identifier that is not a ValidationResultIdentifier,
completes normally (returning `None` after its print) instead of raising the
contract-violation TypeError. -/
theorem noOpAction_wrong_identifier_no_error :
    (Identifier.other 0).isValidationResultIdentifier = false
    ∧ NoOpAction.run ⟨dcEx⟩ (some rEx) (Identifier.other 0) none
        = ([Effect.printMsg "Happily doing nothing"], Except.ok RetVal.none) :=
  ⟨rfl, rfl⟩

/-- Claim C3 (amended): each of the five guarded actions (Slack notification,
result persistence, evaluation-parameter persistence, metrics persistence,
documentation refresh), invoked through `run` with a non-None result and an
identifier not of kind ValidationResultIdentifier, raises a TypeError before
any collaborator call; NoOpAction performs no such check. -/
theorem guarded_actions_wrong_identifier_type_error
    (aSlack : SlackNotificationAction) (aStore : StoreValidationResultAction)
    (aEval : StoreEvaluationParametersAction) (aMetrics : StoreMetricsAction)
    (aDocs : UpdateDataDocsAction) (r : ValidationResult) (i : Identifier)
    (da : Option Nat) (h : i.isValidationResultIdentifier = false) :
    SlackNotificationAction.run aSlack (some r) i da
        = ([], Except.error (ActionError.typeError (slackTypeErrorMsg i)))
    ∧ StoreValidationResultAction.run aStore (some r) i da
        = ([], Except.error (ActionError.typeError (storeTypeErrorMsg i)))
    ∧ StoreEvaluationParametersAction.run aEval (some r) i da
        = ([], Except.error (ActionError.typeError (storeTypeErrorMsg i)))
    ∧ StoreMetricsAction.run aMetrics (some r) i da
        = ([], Except.error (ActionError.typeError (storeTypeErrorMsg i)))
    ∧ UpdateDataDocsAction.run aDocs (some r) i da
        = ([], Except.error (ActionError.typeError (storeTypeErrorMsg i))) := by
  refine ⟨?_, ?_, ?_, ?_, ?_⟩ <;>
    simp [SlackNotificationAction.run, SlackNotificationAction._run,
      StoreValidationResultAction.run, StoreValidationResultAction._run,
      StoreEvaluationParametersAction.run, StoreEvaluationParametersAction._run,
      StoreMetricsAction.run, StoreMetricsAction._run,
      UpdateDataDocsAction.run, UpdateDataDocsAction._run, h]

/-- Witness for C3 (amended): the five guarded example actions all raise the
TypeError on a foreign identifier. -/
theorem guarded_actions_wrong_identifier_type_error_witness :
    (Identifier.other 0).isValidationResultIdentifier = false
    ∧ (SlackNotificationAction.run slackEx (some rEx) (Identifier.other 0) none
        = ([], Except.error (ActionError.typeError (slackTypeErrorMsg (Identifier.other 0))))
      ∧ StoreValidationResultAction.run storeVRActionEx (some rEx) (Identifier.other 0) none
        = ([], Except.error (ActionError.typeError (storeTypeErrorMsg (Identifier.other 0))))
      ∧ StoreEvaluationParametersAction.run storeEvalActionEx (some rEx) (Identifier.other 0) none
        = ([], Except.error (ActionError.typeError (storeTypeErrorMsg (Identifier.other 0))))
      ∧ StoreMetricsAction.run storeMetricsActionEx (some rEx) (Identifier.other 0) none
        = ([], Except.error (ActionError.typeError (storeTypeErrorMsg (Identifier.other 0))))
      ∧ UpdateDataDocsAction.run docsActionEx (some rEx) (Identifier.other 0) none
        = ([], Except.error (ActionError.typeError (storeTypeErrorMsg (Identifier.other 0))))) :=
  ⟨rfl, guarded_actions_wrong_identifier_type_error slackEx storeVRActionEx
    storeEvalActionEx storeMetricsActionEx docsActionEx rEx (Identifier.other 0)
    none rfl⟩

/-- Claim C4: the base `ValidationAction.run`, which delegates to the base
`_run`, completes normally for every input, returning the
`NotImplementedError` class as a value (`return NotImplementedError`) instead
of raising it. -/
theorem validationAction_base_run_returns_without_raising
    (vrs : Option ValidationResult) (i : Identifier) (da : Option Nat) :
    ValidationAction.run vrs i da
      = ([], Except.ok RetVal.notImplementedErrorClass) := rfl

/-- Claim C5: `StoreMetricsAction.__init__` raises a DataContextError when the
target store name is not registered, and a DataContextError when the resolved
store is not a MetricStore; `_run` performs neither check: on valid input its
only collaborator call is the metrics delegation, and it can never raise a
DataContextError. -/
theorem storeMetricsAction_construction_checks
    (dc : DataContext) (rm : RequestedMetrics) (n : String) :
    (dc.storesLookup n = Except.error (ActionError.keyError n) →
      StoreMetricsAction.init dc rm n = Except.error (ActionError.dataContextError
        ("Unable to find store " ++ n ++ " in your DataContext configuration.")))
    ∧ (∀ st, dc.storesLookup n = Except.ok st → st.kind ≠ StoreKind.metricStore →
      StoreMetricsAction.init dc rm n = Except.error (ActionError.dataContextError
        "StoreMetricsAction must have a valid MetricsStore for its target store."))
    ∧ (∀ (a : StoreMetricsAction) (r : ValidationResult) (i : Identifier)
        (da : Option Nat), i.isValidationResultIdentifier = true →
      StoreMetricsAction.run a (some r) i da
        = ([Effect.storeValidationResultMetrics a.dataContext a.requestedMetrics
            r a.targetStoreName], Except.ok RetVal.none))
    ∧ (∀ (a : StoreMetricsAction) (vrs : Option ValidationResult) (i : Identifier)
        (da : Option Nat) (msg : String),
      (StoreMetricsAction.run a vrs i da).2
        ≠ Except.error (ActionError.dataContextError msg)) := by
  refine ⟨?_, ?_, ?_, ?_⟩
  · intro hl
    simp [StoreMetricsAction.init, hl]
  · intro st hl hk
    simp [StoreMetricsAction.init, hl, hk]
  · intro a r i da h
    simp [StoreMetricsAction.run, StoreMetricsAction._run, h]
  · intro a vrs i da msg
    cases vrs with
    | none => simp [StoreMetricsAction.run, StoreMetricsAction._run]
    | some r =>
      by_cases h : i.isValidationResultIdentifier = true
      · simp [StoreMetricsAction.run, StoreMetricsAction._run, h]
      · simp only [Bool.not_eq_true] at h
        simp [StoreMetricsAction.run, StoreMetricsAction._run, h]

/-- Witness for C5: in the example Data Context, an unknown name and a
non-metric store both fail construction; the example metrics action delegates
on valid input and raises no DataContextError on an invalid identifier. -/
theorem storeMetricsAction_construction_checks_witness :
    StoreMetricsAction.init dcEx [] "missing"
      = Except.error (ActionError.dataContextError
          ("Unable to find store " ++ "missing" ++ " in your DataContext configuration."))
    ∧ StoreMetricsAction.init dcEx [] "validations_store"
      = Except.error (ActionError.dataContextError
          "StoreMetricsAction must have a valid MetricsStore for its target store.")
    ∧ StoreMetricsAction.run storeMetricsActionEx (some rEx)
        (Identifier.validationResult 0) none
      = ([Effect.storeValidationResultMetrics dcEx [] rEx "metrics_store"],
          Except.ok RetVal.none)
    ∧ (StoreMetricsAction.run storeMetricsActionEx (some rEx)
        (Identifier.other 0) none).2
      ≠ Except.error (ActionError.dataContextError "deferred check") :=
  ⟨(storeMetricsAction_construction_checks dcEx [] "missing").1 rfl,
   (storeMetricsAction_construction_checks dcEx [] "validations_store").2.1
     storeBasicEx rfl (by decide),
   (storeMetricsAction_construction_checks dcEx [] "metrics_store").2.2.1
     storeMetricsActionEx rEx (Identifier.validationResult 0) none rfl,
   (storeMetricsAction_construction_checks dcEx [] "metrics_store").2.2.2
     storeMetricsActionEx (some rEx) (Identifier.other 0) none "deferred check"⟩

/-- Claim C6: `UpdateDataDocsAction.__init__` with both `site_names` and the
deprecated `target_site_names` truthy raises a DataContextError (after the
deprecation warning); with only the deprecated parameter truthy it emits the
deprecation warning and yields exactly the action that the modern parameter
with the same value yields. -/
theorem updateDataDocsAction_deprecated_site_names
    (dc : DataContext) (s t : Option (List String)) :
    (truthyOptList t = true → truthyOptList s = true →
      UpdateDataDocsAction.init dc s t
        = ([targetSiteNamesDeprecationMsg],
            Except.error (ActionError.dataContextError
              ("Invalid configuration: legacy key target_site_names and site_names key are "
                ++ "both present in UpdateDataDocsAction configuration"))))
    ∧ (truthyOptList t = true → truthyOptList s = false →
      UpdateDataDocsAction.init dc s t
          = ([targetSiteNamesDeprecationMsg], Except.ok ⟨dc, t⟩)
        ∧ (UpdateDataDocsAction.init dc t none).2 = Except.ok ⟨dc, t⟩) := by
  refine ⟨?_, ?_⟩
  · intro ht hs
    simp [UpdateDataDocsAction.init, ht, hs]
  · intro ht hs
    refine ⟨?_, ?_⟩
    · simp [UpdateDataDocsAction.init, ht, hs]
    · simp [UpdateDataDocsAction.init, truthyOptList]

/-- Witness for C6: with the example Data Context, supplying both `["a"]` and
deprecated `["b"]` raises; supplying only deprecated `["b"]` warns and equals
the modern construction with `["b"]`. -/
theorem updateDataDocsAction_deprecated_site_names_witness :
    truthyOptList (some ["b"]) = true
    ∧ UpdateDataDocsAction.init dcEx (some ["a"]) (some ["b"])
      = ([targetSiteNamesDeprecationMsg],
          Except.error (ActionError.dataContextError
            ("Invalid configuration: legacy key target_site_names and site_names key are "
              ++ "both present in UpdateDataDocsAction configuration")))
    ∧ (UpdateDataDocsAction.init dcEx none (some ["b"])
        = ([targetSiteNamesDeprecationMsg], Except.ok ⟨dcEx, some ["b"]⟩)
      ∧ (UpdateDataDocsAction.init dcEx (some ["b"]) none).2
        = Except.ok ⟨dcEx, some ["b"]⟩) :=
  ⟨rfl,
   (updateDataDocsAction_deprecated_site_names dcEx (some ["a"]) (some ["b"])).1 rfl rfl,
   (updateDataDocsAction_deprecated_site_names dcEx none (some ["b"])).2 rfl rfl⟩

/-- The spec-modelled store returns the value just upserted at a key. -/
theorem storeStateGet_storeStateSet (s : StoreState) (k : Identifier)
    (v : ValidationResult) : storeStateGet (storeStateSet s k v) k = some v := by
  simp [storeStateGet, storeStateSet, List.find?]

/-- Claim C7: a successful `StoreValidationResultAction.run` on a non-None
result and a valid identifier performs exactly one store write, the pair
`(identifier, result)` to the target store; replaying it against any prior
store state (upsert semantics), a subsequent `get(identifier)` on that store
returns that same result, overwriting any previously stored value. -/
theorem storeValidationResultAction_roundtrip
    (a : StoreValidationResultAction) (r : ValidationResult) (i : Identifier)
    (da : Option Nat) (s : StoreState)
    (h : i.isValidationResultIdentifier = true) :
    StoreValidationResultAction.run a (some r) i da
        = ([Effect.storeSet a.targetStore.sid i r], Except.ok RetVal.none)
    ∧ storeStateGet
        (applyEffectsToStore a.targetStore.sid s
          (StoreValidationResultAction.run a (some r) i da).1) i = some r := by
  have hrun : StoreValidationResultAction.run a (some r) i da
      = ([Effect.storeSet a.targetStore.sid i r], Except.ok RetVal.none) := by
    simp [StoreValidationResultAction.run, StoreValidationResultAction._run, h]
  refine ⟨hrun, ?_⟩
  rw [hrun]
  simp [applyEffectsToStore, storeStateGet_storeStateSet]

/-- Witness for C7: the example action writes `(id 3, rEx)` and `get` returns
`rEx`, overwriting the failed result previously stored at `id 3`. -/
theorem storeValidationResultAction_roundtrip_witness :
    StoreValidationResultAction.run storeVRActionEx (some rEx)
        (Identifier.validationResult 3) none
      = ([Effect.storeSet storeVRActionEx.targetStore.sid
          (Identifier.validationResult 3) rEx], Except.ok RetVal.none)
    ∧ storeStateGet
        (applyEffectsToStore storeVRActionEx.targetStore.sid
          [(Identifier.validationResult 3, ⟨false, 9⟩)]
          (StoreValidationResultAction.run storeVRActionEx (some rEx)
            (Identifier.validationResult 3) none).1)
        (Identifier.validationResult 3) = some rEx :=
  storeValidationResultAction_roundtrip storeVRActionEx rEx
    (Identifier.validationResult 3) none
    [(Identifier.validationResult 3, ⟨false, 9⟩)] rfl

/-- Counterexample for C8: constructing the evaluation-parameter action with
an explicit target store name absent from the example Data Context's registry
raises a KeyError rather than completing. -/
theorem storeEvaluationParametersAction_init_unknown_name_raises :
    StoreEvaluationParametersAction.init dcEx (some "no_such_store")
      = Except.error (ActionError.keyError "no_such_store") := rfl

/-- Claim C8 (amended): with `target_store_name = None` the constructor always
completes, taking the Data Context's default evaluation-parameter store
without consulting the registry; with an explicit registered name it
completes with that store; with an explicit unregistered name it raises the
registry lookup's KeyError (not a configuration error). -/
theorem storeEvaluationParametersAction_init_resolution
    (dc : DataContext) (n : String) :
    (StoreEvaluationParametersAction.init dc none
      = Except.ok ⟨dc, dc.evaluationParameterStore⟩)
    ∧ (∀ st, dc.storesLookup n = Except.ok st →
      StoreEvaluationParametersAction.init dc (some n) = Except.ok ⟨dc, st⟩)
    ∧ (dc.storesLookup n = Except.error (ActionError.keyError n) →
      StoreEvaluationParametersAction.init dc (some n)
        = Except.error (ActionError.keyError n)) := by
  refine ⟨rfl, ?_, ?_⟩
  · intro st hl
    simp [StoreEvaluationParametersAction.init, hl, Except.map]
  · intro hl
    simp [StoreEvaluationParametersAction.init, hl, Except.map]

/-- Witness for C8 (amended): in the example Data Context, `None` resolves to
the default store, `"metrics_store"` resolves to the registered metric store,
and `"no_name"` raises a KeyError. -/
theorem storeEvaluationParametersAction_init_resolution_witness :
    StoreEvaluationParametersAction.init dcEx none
      = Except.ok ⟨dcEx, dcEx.evaluationParameterStore⟩
    ∧ StoreEvaluationParametersAction.init dcEx (some "metrics_store")
      = Except.ok ⟨dcEx, storeMetricEx⟩
    ∧ StoreEvaluationParametersAction.init dcEx (some "no_name")
      = Except.error (ActionError.keyError "no_name") :=
  ⟨(storeEvaluationParametersAction_init_resolution dcEx "no_name").1,
   (storeEvaluationParametersAction_init_resolution dcEx "metrics_store").2.1
     storeMetricEx rfl,
   (storeEvaluationParametersAction_init_resolution dcEx "no_name").2.2 rfl⟩

/-- Claim C9: in each of the five guarded actions, the absent-result guard is
evaluated before the identifier-kind guard: `run` with a `None` result and an
identifier not of kind ValidationResultIdentifier returns `None` without
raising the TypeError and without any collaborator call. -/
theorem guarded_actions_none_guard_precedes_identifier_guard
    (aSlack : SlackNotificationAction) (aStore : StoreValidationResultAction)
    (aEval : StoreEvaluationParametersAction) (aMetrics : StoreMetricsAction)
    (aDocs : UpdateDataDocsAction) (i : Identifier) (da : Option Nat)
    (h : i.isValidationResultIdentifier = false) :
    SlackNotificationAction.run aSlack none i da = ([], Except.ok RetVal.none)
    ∧ StoreValidationResultAction.run aStore none i da = ([], Except.ok RetVal.none)
    ∧ StoreEvaluationParametersAction.run aEval none i da = ([], Except.ok RetVal.none)
    ∧ StoreMetricsAction.run aMetrics none i da = ([], Except.ok RetVal.none)
    ∧ UpdateDataDocsAction.run aDocs none i da = ([], Except.ok RetVal.none) :=
  ⟨rfl, rfl, rfl, rfl, rfl⟩

/-- Witness for C9: the five guarded example actions all return `None` on a
`None` result paired with a foreign identifier. -/
theorem guarded_actions_none_guard_precedes_identifier_guard_witness :
    (Identifier.other 5).isValidationResultIdentifier = false
    ∧ (SlackNotificationAction.run slackEx none (Identifier.other 5) none
        = ([], Except.ok RetVal.none)
      ∧ StoreValidationResultAction.run storeVRActionEx none (Identifier.other 5) none
        = ([], Except.ok RetVal.none)
      ∧ StoreEvaluationParametersAction.run storeEvalActionEx none (Identifier.other 5) none
        = ([], Except.ok RetVal.none)
      ∧ StoreMetricsAction.run storeMetricsActionEx none (Identifier.other 5) none
        = ([], Except.ok RetVal.none)
      ∧ UpdateDataDocsAction.run docsActionEx none (Identifier.other 5) none
        = ([], Except.ok RetVal.none)) :=
  ⟨rfl, guarded_actions_none_guard_precedes_identifier_guard slackEx
    storeVRActionEx storeEvalActionEx storeMetricsActionEx docsActionEx
    (Identifier.other 5) none rfl⟩

/-- Claim C10: `StoreEvaluationParametersAction._run` never reads the target
store resolved at construction: on a non-None result and valid identifier its
only collaborator call is `data_context.store_evaluation_parameters(result)`,
and two instances constructed against the same Data Context with different
(resolvable) target store names have identical `run` behavior on every
input. -/
theorem storeEvaluationParametersAction_run_ignores_target_store
    (dc : DataContext) (n₁ n₂ : Option String)
    (a₁ a₂ : StoreEvaluationParametersAction)
    (h₁ : StoreEvaluationParametersAction.init dc n₁ = Except.ok a₁)
    (h₂ : StoreEvaluationParametersAction.init dc n₂ = Except.ok a₂) :
    (∀ (r : ValidationResult) (i : Identifier) (da : Option Nat),
      i.isValidationResultIdentifier = true →
      StoreEvaluationParametersAction.run a₁ (some r) i da
        = ([Effect.storeEvaluationParameters dc r], Except.ok RetVal.none))
    ∧ ∀ (vrs : Option ValidationResult) (i : Identifier) (da : Option Nat),
      StoreEvaluationParametersAction.run a₁ vrs i da
        = StoreEvaluationParametersAction.run a₂ vrs i da := by
  have hdc : ∀ (n : Option String) (a : StoreEvaluationParametersAction),
      StoreEvaluationParametersAction.init dc n = Except.ok a →
      a.dataContext = dc := by
    intro n a h
    cases n with
    | none =>
      simp [StoreEvaluationParametersAction.init] at h
      rw [← h]
    | some n =>
      cases hl : dc.storesLookup n with
      | error e =>
        rw [StoreEvaluationParametersAction.init, hl] at h
        simp [Except.map] at h
      | ok st =>
        rw [StoreEvaluationParametersAction.init, hl] at h
        simp [Except.map] at h
        rw [← h]
  have hd₁ : a₁.dataContext = dc := hdc n₁ a₁ h₁
  have hd₂ : a₂.dataContext = dc := hdc n₂ a₂ h₂
  refine ⟨?_, ?_⟩
  · intro r i da h
    simp [StoreEvaluationParametersAction.run,
      StoreEvaluationParametersAction._run, h, hd₁]
  · intro vrs i da
    cases vrs with
    | none => rfl
    | some r =>
      simp [StoreEvaluationParametersAction.run,
        StoreEvaluationParametersAction._run, hd₁, hd₂]

/-- Witness for C10: two actions built on the example Data Context against
the two different registered stores delegate identically. -/
theorem storeEvaluationParametersAction_run_ignores_target_store_witness :
    StoreEvaluationParametersAction.run ⟨dcEx, storeBasicEx⟩ (some rEx)
      (Identifier.validationResult 0) none
      = ([Effect.storeEvaluationParameters dcEx rEx], Except.ok RetVal.none)
    ∧ StoreEvaluationParametersAction.run ⟨dcEx, storeBasicEx⟩ (some rEx)
        (Identifier.validationResult 0) none
      = StoreEvaluationParametersAction.run ⟨dcEx, storeMetricEx⟩ (some rEx)
        (Identifier.validationResult 0) none :=
  ⟨(storeEvaluationParametersAction_run_ignores_target_store dcEx
      (some "validations_store") (some "metrics_store")
      ⟨dcEx, storeBasicEx⟩ ⟨dcEx, storeMetricEx⟩ rfl rfl).1 rEx
      (Identifier.validationResult 0) none rfl,
   (storeEvaluationParametersAction_run_ignores_target_store dcEx
      (some "validations_store") (some "metrics_store")
      ⟨dcEx, storeBasicEx⟩ ⟨dcEx, storeMetricEx⟩ rfl rfl).2 (some rEx)
      (Identifier.validationResult 0) none⟩

end GreatExpectations
